import Mathlib

/-!
Verification of the VQGAN training loop (`src/trainer/trainer.py`, class
`VQGANTrainer`) against its natural-language specification.

Tensors are shallowly embedded as lists of rationals: an image batch is a
list of samples, each sample a flattened list of pixel values; `torch.mean`
over a tensor is the mean of the flattened list.  The opaque collaborators
(the VQGAN generator forward pass, the LPIPS perceptual scorer, the
discriminator, and `calculate_lambda`) are abstract function parameters,
as the spec treats them as opaque capabilities.
-/

/-- Mean of a flattened rational tensor, as `torch.mean`. -/
def mean (xs : List ℚ) : ℚ := xs.sum / (xs.length : ℚ)

/-- Scalar `F.relu`. -/
def relu (x : ℚ) : ℚ := max x 0

/-- An image batch: a list of samples, each a flattened list of pixel values. -/
abbrev Batch := List (List ℚ)

/-- Elementwise binary operation over two same-shaped batches. -/
def bmap2 (f : ℚ → ℚ → ℚ) (a b : Batch) : Batch := List.zipWith (List.zipWith f) a b

/-- Modelled from the spec: `VQGAN.adopt_weight` (in `vqgan.py`, not under `src/`;
only its call site `trainer.py:135-137` is).  Spec §4.2 step 4: the gate "equals
the configured disc_factor constant once Global Step Counter ≥ disc_start
threshold, else 0 — a hard ramp". -/
def adopt_weight (discFactor : ℚ) (i : ℕ) (threshold : ℕ) : ℚ :=
  if i < threshold then 0 else discFactor

/-- Modelled from the spec: `VQGAN.calculate_lambda` (in `vqgan.py`, not under
`src/`; only its call site `trainer.py:141` is).  Spec §4.2 step 6: it compares
the gradient magnitude of the reconstruction-perceptual loss against that of the
generator adversarial loss "and returns their ratio clamped to a bounded range
(documented range: [0, 1e4])". -/
def calculate_lambda (percGradMag ganGradMag : ℚ) : ℚ :=
  min (max (percGradMag / ganGradMag) 0) 10000

/-- Hyperparameters of `VQGANTrainer.__init__` that the step and train loop read. -/
structure TrainerParams where
  discFactor : ℚ
  discStart : ℕ
  perceptualLossFactor : ℚ
  recLossFactor : ℚ
  saveEvery : ℕ
  experimentDir : String
deriving DecidableEq

/-- The opaque collaborators of the trainer: the VQGAN forward pass (returning
the reconstruction and the quantization loss; the quantization indices are
unused by the trainer), the perceptual scorer (one score per sample), the
discriminator (one realness score per sample), and the adaptive-λ helper. -/
structure Collaborators where
  vqganForward : Batch → Batch × ℚ
  perceptualLoss : Batch → Batch → List ℚ
  discriminator : Batch → List ℚ
  calculateLambda : ℚ → ℚ → ℚ

/-- The discriminator gate factor the step computes at `trainer.py:135-137`:
`self.vqgan.adopt_weight(self.disc_factor, self.global_step, threshold=self.disc_start)`. -/
def stepDiscFactorGate (T : TrainerParams) (globalStep : ℕ) : ℚ :=
  adopt_weight T.discFactor globalStep T.discStart

/-- `VQGANTrainer.step` (`trainer.py:99-162`): forward pass, loss composition,
both backward passes and optimizer updates, returning
`(decoded_images, vq_loss, gan_loss)`.  Only the returned values are modelled
here; the mutation/failure ordering is modelled separately by `stepWithFailures`. -/
def step (C : Collaborators) (T : TrainerParams) (globalStep : ℕ) (imgs : Batch) :
    Batch × ℚ × ℚ :=
  let fw := C.vqganForward imgs
  let decodedImages := fw.1
  let qLoss := fw.2
  let perceptualL := C.perceptualLoss imgs decodedImages
  let recLoss := bmap2 (fun a b => |a - b|) imgs decodedImages
  let perceptualRecL := List.zipWith
    (fun p rs => rs.map fun r => T.perceptualLossFactor * p + T.recLossFactor * r)
    perceptualL recLoss
  let perceptualRecMean := mean perceptualRecL.flatten
  let discReal := C.discriminator imgs
  let discFake := C.discriminator decodedImages
  let discFactorG := stepDiscFactorGate T globalStep
  let gLoss := -(mean discFake)
  let lam := C.calculateLambda perceptualRecMean gLoss
  let vqLoss := perceptualRecMean + qLoss + discFactorG * lam * gLoss
  let dLossReal := mean (discReal.map fun x => relu (1 - x))
  let dLossFake := mean (discFake.map fun x => relu (1 + x))
  let ganLoss := discFactorG * (1/2) * (dLossReal + dLossFake)
  (decodedImages, vqLoss, ganLoss)

/-- Spec §4.2 step 2: the reconstruction-perceptual loss, the scalar mean of
`perceptual_loss_factor × perceptual + rec_loss_factor × |imgs − decoded|`
(the per-sample perceptual score broadcasts over that sample's pixels). -/
def reconstructionPerceptualLoss (T : TrainerParams) (perceptual : List ℚ)
    (imgs decoded : Batch) : ℚ :=
  mean (List.zipWith
    (fun p rs => rs.map fun r => T.perceptualLossFactor * p + T.recLossFactor * r)
    perceptual (bmap2 (fun a b => |a - b|) imgs decoded)).flatten

/-- Spec §4.2 step 5: generator adversarial loss = negative mean of `disc_fake`. -/
def generatorAdvLoss (discFake : List ℚ) : ℚ := -(mean discFake)

/-- Stubbed collaborators for the spec's concrete scenario: the generator
reconstructs the input exactly with zero quantization loss, the perceptual
scorer returns 0, the discriminator a constant score, λ = 1. -/
def stubCollab : Collaborators where
  vqganForward := fun imgs => (imgs, 0)
  perceptualLoss := fun imgs _ => imgs.map fun _ => 0
  discriminator := fun b => b.map fun _ => 1
  calculateLambda := fun _ _ => 1

/-- Trainer hyperparameters whose gate factor is 0 at global step 0
(warm-up: `disc_start = 100`). -/
def zeroGateParams : TrainerParams :=
  { discFactor := 1, discStart := 100, perceptualLossFactor := 1, recLossFactor := 1,
    saveEvery := 100, experimentDir := "./experiments" }

/-- A concrete one-sample, one-pixel batch. -/
def sampleImgs : Batch := [[1/2]]

/-- C1: the generator loss returned by `step` equals
reconstruction-perceptual loss + quantization loss + gate × λ × generator
adversarial loss, with the reconstruction-perceptual loss the scalar mean of
`perceptual_loss_factor × perceptual + rec_loss_factor × |imgs − decoded|` and
the adversarial loss the negative mean of the discriminator's score of the
reconstruction; and in the stubbed scenario (quantization loss 0, perceptual 0,
reconstruction diff 0, gate 0) the returned generator loss is 0. -/
theorem C1_generator_loss_formula :
    (∀ (C : Collaborators) (T : TrainerParams) (gs : ℕ) (imgs : Batch),
      (step C T gs imgs).2.1 =
        reconstructionPerceptualLoss T (C.perceptualLoss imgs (C.vqganForward imgs).1)
            imgs (C.vqganForward imgs).1
          + (C.vqganForward imgs).2
          + stepDiscFactorGate T gs
            * C.calculateLambda
                (reconstructionPerceptualLoss T
                  (C.perceptualLoss imgs (C.vqganForward imgs).1)
                  imgs (C.vqganForward imgs).1)
                (generatorAdvLoss (C.discriminator (C.vqganForward imgs).1))
            * generatorAdvLoss (C.discriminator (C.vqganForward imgs).1)) ∧
    (step stubCollab zeroGateParams 0 sampleImgs).2.1 = 0 := by
  constructor
  · intro C T gs imgs
    rfl
  · simp [step, stubCollab, zeroGateParams, sampleImgs, mean, bmap2,
      stepDiscFactorGate, adopt_weight]

/-- C2: the discriminator loss returned by `step` equals
gate × 0.5 × (mean(relu(1 − disc_real)) + mean(relu(1 + disc_fake))), so
whenever the gate factor is 0 the discriminator loss is exactly 0 regardless
of the real and fake scores. -/
theorem C2_discriminator_loss_formula (C : Collaborators) (T : TrainerParams)
    (gs : ℕ) (imgs : Batch) :
    (step C T gs imgs).2.2 =
      stepDiscFactorGate T gs * (1/2)
        * (mean ((C.discriminator imgs).map fun x => relu (1 - x))
           + mean ((C.discriminator (C.vqganForward imgs).1).map fun x => relu (1 + x))) ∧
    (stepDiscFactorGate T gs = 0 → (step C T gs imgs).2.2 = 0) := by
  have h1 : (step C T gs imgs).2.2 =
      stepDiscFactorGate T gs * (1/2)
        * (mean ((C.discriminator imgs).map fun x => relu (1 - x))
           + mean ((C.discriminator (C.vqganForward imgs).1).map fun x => relu (1 + x))) := rfl
  exact ⟨h1, fun h => by rw [h1, h, zero_mul, zero_mul]⟩

/-- C9: the adaptive balancing coefficient λ is always within [0, 1e4],
for all input gradient magnitudes, including zero gradient in either term. -/
theorem C9_lambda_within_bounds (p g : ℚ) :
    0 ≤ calculate_lambda p g ∧ calculate_lambda p g ≤ 10000 := by
  unfold calculate_lambda
  exact ⟨le_min (le_max_right _ _) (by norm_num), min_le_right _ _⟩

/-- C3: the gate factor used by the step is exactly 0 while the Global Step
Counter is below `disc_start` and exactly the configured `disc_factor` once the
counter reaches `disc_start` — a hard step, already equal to `disc_factor`
(hence nonzero whenever `disc_factor` is) at counter == `disc_start`. -/
theorem C3_disc_gate_hard_step (T : TrainerParams) (gs : ℕ) :
    (gs < T.discStart → stepDiscFactorGate T gs = 0) ∧
    (T.discStart ≤ gs → stepDiscFactorGate T gs = T.discFactor) ∧
    stepDiscFactorGate T T.discStart = T.discFactor ∧
    (T.discFactor ≠ 0 → stepDiscFactorGate T T.discStart ≠ 0) := by
  unfold stepDiscFactorGate adopt_weight
  refine ⟨fun h => by simp [h], fun h => by simp [Nat.not_lt.mpr h],
    by simp, fun h => by simpa⟩

/-- Witness for C3 at concrete inputs: with `disc_factor = 3`, `disc_start = 10`,
the gate is 0 at counter 5, 3 at counter 12, and 3 (nonzero) at counter 10. -/
theorem C3_disc_gate_hard_step_witness :
    stepDiscFactorGate { zeroGateParams with discFactor := 3, discStart := 10 } 5 = 0 ∧
    stepDiscFactorGate { zeroGateParams with discFactor := 3, discStart := 10 } 12 = 3 ∧
    stepDiscFactorGate { zeroGateParams with discFactor := 3, discStart := 10 } 10 ≠ 0 :=
  ⟨(C3_disc_gate_hard_step _ 5).1 (by decide),
   (C3_disc_gate_hard_step _ 12).2.1 (by decide),
   (C3_disc_gate_hard_step { zeroGateParams with discFactor := 3, discStart := 10 } 10).2.2.2
     (by simp)⟩

/-- Witness for C2 at concrete inputs: at global step 0 with `disc_start = 100`
the gate is 0 and the returned discriminator loss is 0. -/
theorem C2_discriminator_loss_formula_witness :
    stepDiscFactorGate zeroGateParams 0 = 0 ∧
    (step stubCollab zeroGateParams 0 sampleImgs).2.2 = 0 :=
  ⟨rfl,
   (C2_discriminator_loss_formula stubCollab zeroGateParams 0 sampleImgs).2 rfl⟩

/-- Path of a visualization image (`trainer.py:207-215`):
`os.path.join(experiment_dir, "reconstructed_imgs", "epoch-<epoch>_step-<index>.jpg")`. -/
def vizPath (T : TrainerParams) (epoch index : ℕ) : String :=
  T.experimentDir ++ "/reconstructed_imgs/epoch-" ++ Nat.repr epoch
    ++ "_step-" ++ Nat.repr index ++ ".jpg"

/-- Path of a generator checkpoint (`trainer.py:224-229`):
`os.path.join(experiment_dir, "vqgan_epoch_<epoch>.pt")`. -/
def checkpointPath (T : TrainerParams) (epoch : ℕ) : String :=
  T.experimentDir ++ "/vqgan_epoch_" ++ Nat.repr epoch ++ ".pt"

/-- Observable events of one iteration of `VQGANTrainer.train`: the call to
`self.step` (recording the `global_step` value it reads and the gate factor
`adopt_weight` yields for that value), a `save_image` write, a `torch.save`
checkpoint write, and an `imageio.mimsave` GIF write. -/
inductive TrainEvent where
  | stepCall (counterUsed : ℕ) (gate : ℚ)
  | vizImage (path : String) (content : Batch) (nrow : ℕ)
  | checkpoint (path : String)
  | gifSave (path : String) (numFrames : ℕ) (fps : ℕ)
deriving DecidableEq

/-- Mutable trainer state threaded through the training loop:
`self.global_step`, `self.sample_batch` and `self.gif_images`. -/
structure TrainState where
  globalStep : ℕ
  sampleBatch : Option Batch
  gifImages : List Batch
deriving DecidableEq

/-- Initial trainer state from `VQGANTrainer.__init__` (`trainer.py:72-74`):
`global_step = 0`, `sample_batch = None`, `gif_images = []`. -/
def initState : TrainState := { globalStep := 0, sampleBatch := none, gifImages := [] }

/-- One iteration of the inner loop of `VQGANTrainer.train`
(`trainer.py:173-238`): run `self.step` on the batch, increment
`global_step`, and on the `index % save_every == 0` cadence fix the sample
batch (first time only), append a GIF frame, write the visualization image,
and on `index % 100 == 0` additionally write the checkpoint and the GIF. -/
def processBatch (C : Collaborators) (T : TrainerParams) (epoch index : ℕ)
    (imgs : Batch) (s : TrainState) : TrainState × List TrainEvent :=
  let decodedImages := (step C T s.globalStep imgs).1
  let stepEvent := TrainEvent.stepCall s.globalStep (stepDiscFactorGate T s.globalStep)
  let s1 : TrainState := { s with globalStep := s.globalStep + 1 }
  if index % T.saveEvery = 0 then
    let sb := s1.sampleBatch.getD (imgs.take 1)
    let frame := sb ++ (C.vqganForward sb).1
    let s2 : TrainState :=
      { globalStep := s1.globalStep, sampleBatch := some sb,
        gifImages := s1.gifImages ++ [frame] }
    let viz := TrainEvent.vizImage (vizPath T epoch index)
      (imgs.take 4 ++ decodedImages.take 4) 4
    if index % 100 = 0 then
      (s2, [stepEvent, viz, TrainEvent.checkpoint (checkpointPath T epoch),
            TrainEvent.gifSave "movie.gif" s2.gifImages.length 5])
    else
      (s2, [stepEvent, viz])
  else
    (s1, [stepEvent])

/-- The inner `for index, imgs in enumerate(dataloader)` loop of
`VQGANTrainer.train`, starting at batch index `index`. -/
def runBatchesFrom (C : Collaborators) (T : TrainerParams) (epoch index : ℕ)
    (batches : List Batch) (s : TrainState) : TrainState × List TrainEvent :=
  match batches with
  | [] => (s, [])
  | b :: rest =>
    let r := processBatch C T epoch index b s
    let r2 := runBatchesFrom C T epoch (index + 1) rest r.1
    (r2.1, r.2 ++ r2.2)

/-- The outer `for epoch in range(epochs)` loop of `VQGANTrainer.train`,
with `epochsLeft` epochs still to run starting at epoch number `epoch`;
each epoch re-enumerates the dataloader from index 0. -/
def runEpochsFrom (C : Collaborators) (T : TrainerParams) (epoch epochsLeft : ℕ)
    (batches : List Batch) (s : TrainState) : TrainState × List TrainEvent :=
  match epochsLeft with
  | 0 => (s, [])
  | n + 1 =>
    let r := runBatchesFrom C T epoch 0 batches s
    let r2 := runEpochsFrom C T (epoch + 1) n batches r.1
    (r2.1, r.2 ++ r2.2)

/-- `VQGANTrainer.train(epochs, dataloader)` (`trainer.py:164-238`), with the
dataloader modelled as the list of batches it yields each epoch. -/
def train (C : Collaborators) (T : TrainerParams) (epochs : ℕ)
    (batches : List Batch) : TrainState × List TrainEvent :=
  runEpochsFrom C T 0 epochs batches initState

/-- The `self.step` calls recorded in an event list: the `global_step` value
each call read and the gate factor computed from it. -/
def stepCalls (evs : List TrainEvent) : List (ℕ × ℚ) :=
  evs.filterMap fun e =>
    match e with
    | TrainEvent.stepCall c g => some (c, g)
    | _ => none

/-- Whether an event list contains a checkpoint write. -/
def hasCheckpoint (evs : List TrainEvent) : Bool :=
  evs.any fun e =>
    match e with
    | TrainEvent.checkpoint _ => true
    | _ => false

/-- Whether an event list contains a visualization-image write. -/
def hasViz (evs : List TrainEvent) : Bool :=
  evs.any fun e =>
    match e with
    | TrainEvent.vizImage _ _ _ => true
    | _ => false

theorem processBatch_globalStep (C : Collaborators) (T : TrainerParams)
    (epoch index : ℕ) (imgs : Batch) (s : TrainState) :
    ((processBatch C T epoch index imgs s).1).globalStep = s.globalStep + 1 := by
  by_cases h1 : index % T.saveEvery = 0 <;> by_cases h2 : index % 100 = 0 <;>
    simp [processBatch, h1, h2]

theorem runBatchesFrom_globalStep (C : Collaborators) (T : TrainerParams)
    (epoch : ℕ) (batches : List Batch) (index : ℕ) (s : TrainState) :
    ((runBatchesFrom C T epoch index batches s).1).globalStep
      = s.globalStep + batches.length := by
  induction batches generalizing index s with
  | nil => simp [runBatchesFrom]
  | cons b rest ih =>
    simp only [runBatchesFrom, ih, processBatch_globalStep, List.length_cons]
    omega

theorem runEpochsFrom_globalStep (C : Collaborators) (T : TrainerParams)
    (batches : List Batch) (epochsLeft epoch : ℕ) (s : TrainState) :
    ((runEpochsFrom C T epoch epochsLeft batches s).1).globalStep
      = s.globalStep + epochsLeft * batches.length := by
  induction epochsLeft generalizing epoch s with
  | zero => simp [runEpochsFrom]
  | succ n ih =>
    simp only [runEpochsFrom, ih, runBatchesFrom_globalStep]
    ring

theorem processBatch_sampleBatch_some (C : Collaborators) (T : TrainerParams)
    (epoch index : ℕ) (imgs : Batch) (s : TrainState) (b : Batch)
    (h : s.sampleBatch = some b) :
    ((processBatch C T epoch index imgs s).1).sampleBatch = some b := by
  by_cases h1 : index % T.saveEvery = 0 <;> by_cases h2 : index % 100 = 0 <;>
    simp [processBatch, h1, h2, h]

theorem runBatchesFrom_sampleBatch_some (C : Collaborators) (T : TrainerParams)
    (epoch : ℕ) (batches : List Batch) (index : ℕ) (s : TrainState) (b : Batch)
    (h : s.sampleBatch = some b) :
    ((runBatchesFrom C T epoch index batches s).1).sampleBatch = some b := by
  induction batches generalizing index s with
  | nil => simpa [runBatchesFrom] using h
  | cons bb rest ih =>
    simp only [runBatchesFrom]
    exact ih (index + 1) _ (processBatch_sampleBatch_some C T epoch index bb s b h)

theorem runEpochsFrom_sampleBatch_some (C : Collaborators) (T : TrainerParams)
    (batches : List Batch) (epochsLeft epoch : ℕ) (s : TrainState) (b : Batch)
    (h : s.sampleBatch = some b) :
    ((runEpochsFrom C T epoch epochsLeft batches s).1).sampleBatch = some b := by
  induction epochsLeft generalizing epoch s with
  | zero => simpa [runEpochsFrom] using h
  | succ n ih =>
    simp only [runEpochsFrom]
    exact ih (epoch + 1) _ (runBatchesFrom_sampleBatch_some C T epoch batches 0 s b h)

theorem stepCalls_append (a b : List TrainEvent) :
    stepCalls (a ++ b) = stepCalls a ++ stepCalls b := by
  simp [stepCalls]

theorem stepCalls_processBatch (C : Collaborators) (T : TrainerParams)
    (epoch index : ℕ) (imgs : Batch) (s : TrainState) :
    stepCalls (processBatch C T epoch index imgs s).2
      = [(s.globalStep, stepDiscFactorGate T s.globalStep)] := by
  by_cases h1 : index % T.saveEvery = 0 <;> by_cases h2 : index % 100 = 0 <;>
    simp [processBatch, h1, h2, stepCalls]

theorem stepCalls_runBatchesFrom (C : Collaborators) (T : TrainerParams)
    (epoch : ℕ) (batches : List Batch) (index : ℕ) (s : TrainState) :
    stepCalls (runBatchesFrom C T epoch index batches s).2
      = (List.range' s.globalStep batches.length).map
          fun k => (k, stepDiscFactorGate T k) := by
  induction batches generalizing index s with
  | nil => simp [runBatchesFrom, stepCalls]
  | cons b rest ih =>
    simp only [runBatchesFrom, stepCalls_append, stepCalls_processBatch, ih,
      processBatch_globalStep, List.length_cons, List.range'_succ, List.map_cons]
    simp

theorem stepCalls_runEpochsFrom (C : Collaborators) (T : TrainerParams)
    (batches : List Batch) (epochsLeft epoch : ℕ) (s : TrainState) :
    stepCalls (runEpochsFrom C T epoch epochsLeft batches s).2
      = (List.range' s.globalStep (epochsLeft * batches.length)).map
          fun k => (k, stepDiscFactorGate T k) := by
  induction epochsLeft generalizing epoch s with
  | zero => simp [runEpochsFrom, stepCalls]
  | succ n ih =>
    have hm : (n + 1) * batches.length = n * batches.length + batches.length := by ring
    simp only [runEpochsFrom, stepCalls_append, stepCalls_runBatchesFrom, ih,
      runBatchesFrom_globalStep, hm, ← List.range'_append_1, List.map_append]

/-- C5: the Global Step Counter starts at 0 at construction, increases by
exactly 1 per processed batch unconditionally (whatever the cadence checks do),
and over any run segment of `k` epochs over `n` batches grows by exactly `k·n`
(so it is never reset and is monotone across epoch boundaries); a full run of
`epochs` epochs ends with the counter at `epochs × batches.length`. -/
theorem C5_global_step_counter :
    initState.globalStep = 0 ∧
    (∀ (C : Collaborators) (T : TrainerParams) (epoch index : ℕ)
        (imgs : Batch) (s : TrainState),
      ((processBatch C T epoch index imgs s).1).globalStep = s.globalStep + 1) ∧
    (∀ (C : Collaborators) (T : TrainerParams) (epoch epochsLeft : ℕ)
        (batches : List Batch) (s : TrainState),
      ((runEpochsFrom C T epoch epochsLeft batches s).1).globalStep
        = s.globalStep + epochsLeft * batches.length) ∧
    (∀ (C : Collaborators) (T : TrainerParams) (epochs : ℕ) (batches : List Batch),
      ((train C T epochs batches).1).globalStep = epochs * batches.length) :=
  ⟨rfl, processBatch_globalStep,
   fun C T epoch epochsLeft batches s => runEpochsFrom_globalStep C T batches epochsLeft epoch s,
   fun C T epochs batches => by
     simp [train, runEpochsFrom_globalStep, initState]⟩

/-- C6: the Sample Batch is assigned exactly once per run: a cadence-triggered
iteration that finds it unset sets it to the first sample of that batch, a
non-triggered iteration leaves it unset, and once set to some value every
later iteration (hence every later visualization, across the whole run)
retains that identical value. -/
theorem C6_sample_batch_fixed_once :
    (∀ (C : Collaborators) (T : TrainerParams) (epoch index : ℕ)
        (imgs : Batch) (s : TrainState) (b : Batch), s.sampleBatch = some b →
      ((processBatch C T epoch index imgs s).1).sampleBatch = some b) ∧
    (∀ (C : Collaborators) (T : TrainerParams) (epoch index : ℕ)
        (imgs : Batch) (s : TrainState), s.sampleBatch = none →
      index % T.saveEvery = 0 →
      ((processBatch C T epoch index imgs s).1).sampleBatch = some (imgs.take 1)) ∧
    (∀ (C : Collaborators) (T : TrainerParams) (epoch index : ℕ)
        (imgs : Batch) (s : TrainState), s.sampleBatch = none →
      ¬ index % T.saveEvery = 0 →
      ((processBatch C T epoch index imgs s).1).sampleBatch = none) ∧
    (∀ (C : Collaborators) (T : TrainerParams) (epoch epochsLeft : ℕ)
        (batches : List Batch) (s : TrainState) (b : Batch), s.sampleBatch = some b →
      ((runEpochsFrom C T epoch epochsLeft batches s).1).sampleBatch = some b) := by
  refine ⟨processBatch_sampleBatch_some, ?_, ?_, ?_⟩
  · intro C T epoch index imgs s h hidx
    by_cases h2 : index % 100 = 0 <;> simp [processBatch, hidx, h2, h]
  · intro C T epoch index imgs s h hidx
    simp [processBatch, hidx, h]
  · intro C T epoch epochsLeft batches s b h
    exact runEpochsFrom_sampleBatch_some C T batches epochsLeft epoch s b h

/-- Witness for C6 at concrete inputs: the initial state has no Sample Batch;
a cadence-triggered batch sets it to the batch's first sample; a later batch
keeps the previously set value unchanged. -/
theorem C6_sample_batch_fixed_once_witness :
    initState.sampleBatch = none ∧
    ((processBatch stubCollab zeroGateParams 0 0 sampleImgs initState).1).sampleBatch
      = some (sampleImgs.take 1) ∧
    ((processBatch stubCollab zeroGateParams 0 1 sampleImgs
        { initState with sampleBatch := some sampleImgs }).1).sampleBatch
      = some sampleImgs :=
  ⟨rfl,
   C6_sample_batch_fixed_once.2.1 stubCollab zeroGateParams 0 0 sampleImgs initState
     rfl (by decide),
   C6_sample_batch_fixed_once.1 stubCollab zeroGateParams 0 1 sampleImgs
     { initState with sampleBatch := some sampleImgs } sampleImgs rfl⟩

/-- C10: over a full run, the k-th processed batch (counting from 0 across
epochs) invokes `step` with the Global Step Counter still equal to k — the
counter is incremented only after `step` returns — and is therefore gated
with `adopt_weight(disc_factor, k, disc_start)`; in particular the first
batch is always evaluated with counter 0. -/
theorem C10_gate_uses_pre_increment_counter (C : Collaborators) (T : TrainerParams)
    (epochs : ℕ) (batches : List Batch) :
    stepCalls (train C T epochs batches).2
      = (List.range (epochs * batches.length)).map
          fun k => (k, adopt_weight T.discFactor k T.discStart) := by
  simp [train, stepCalls_runEpochsFrom, initState, List.range_eq_range', stepDiscFactorGate]

/-- Spec-side reading of claim C4's checkpoint cadence: "every 100th occurrence
of the save_every visualization cadence", i.e. the batch index is a multiple of
`save_every` and the occurrence count `index / save_every` of that cadence is
itself a multiple of 100. -/
def nestedCadenceHit (saveEvery index : ℕ) : Prop :=
  index % saveEvery = 0 ∧ (index / saveEvery) % 100 = 0

instance (saveEvery index : ℕ) : Decidable (nestedCadenceHit saveEvery index) :=
  inferInstanceAs (Decidable (_ ∧ _))

/-- Trainer hyperparameters with `save_every = 50`. -/
def paramsSave50 : TrainerParams :=
  { zeroGateParams with saveEvery := 50 }

/-- Counterexample to C4 as stated: with `save_every = 50`, the iteration at
batch index 100 writes a checkpoint (100 is a multiple of both 50 and 100),
yet it is only the 2nd occurrence of the save_every cadence, not a 100th one —
the code gates the checkpoint on `index % 100 == 0`, not on the occurrence
count of the save_every cadence. -/
theorem C4_checkpoint_cadence_counterexample :
    ¬ (hasCheckpoint (processBatch stubCollab paramsSave50 0 100 sampleImgs initState).2 = true
        ↔ nestedCadenceHit 50 100) := by
  intro h
  have h1 : hasCheckpoint (processBatch stubCollab paramsSave50 0 100 sampleImgs initState).2
      = true := by
    simp [processBatch, paramsSave50, zeroGateParams, hasCheckpoint]
  have h2 := h.mp h1
  simp only [nestedCadenceHit] at h2
  omega

/-- C4 amended: a train-loop iteration writes the generator checkpoint
`<experiment_dir>/vqgan_epoch_<epoch>.pt` if and only if the batch index is a
multiple of `save_every` and also a multiple of the hard-coded 100 (for the
default `save_every = 100` this coincides with the claimed every-100th-occurrence
cadence, but in general the nested check is on the index, not on the occurrence
count). -/
theorem C4_checkpoint_cadence_amended (C : Collaborators) (T : TrainerParams)
    (epoch index : ℕ) (imgs : Batch) (s : TrainState) (hse : 0 < T.saveEvery) :
    hasCheckpoint (processBatch C T epoch index imgs s).2 = true
      ↔ (index % T.saveEvery = 0 ∧ index % 100 = 0) := by
  by_cases h1 : index % T.saveEvery = 0 <;> by_cases h2 : index % 100 = 0 <;>
    simp [processBatch, h1, h2, hasCheckpoint]

/-- Witness for the amended C4 at concrete inputs: with `save_every = 100`,
batch index 0 (a multiple of both 100 and `save_every`) writes a checkpoint. -/
theorem C4_checkpoint_cadence_amended_witness :
    hasCheckpoint (processBatch stubCollab zeroGateParams 0 0 sampleImgs initState).2
      = true :=
  (C4_checkpoint_cadence_amended stubCollab zeroGateParams 0 0 sampleImgs initState
    (by decide)).mpr (by decide)

/-- C8: a train-loop iteration writes a visualization image if and only if the
batch index is a multiple of `save_every`, and when it does, the written event
is the image at path `<experiment_dir>/reconstructed_imgs/epoch-<epoch>_step-<index>.jpg`
whose content is the first 4 real samples followed by the first 4 reconstructed
samples, laid out with 4 images per row. -/
theorem C8_visualization_cadence (C : Collaborators) (T : TrainerParams)
    (epoch index : ℕ) (imgs : Batch) (s : TrainState) (hse : 0 < T.saveEvery) :
    (hasViz (processBatch C T epoch index imgs s).2 = true
      ↔ index % T.saveEvery = 0) ∧
    (index % T.saveEvery = 0 →
      TrainEvent.vizImage (vizPath T epoch index)
          (imgs.take 4 ++ ((step C T s.globalStep imgs).1).take 4) 4
        ∈ (processBatch C T epoch index imgs s).2) := by
  constructor
  · by_cases h1 : index % T.saveEvery = 0 <;> by_cases h2 : index % 100 = 0 <;>
      simp [processBatch, h1, h2, hasViz]
  · intro h1
    by_cases h2 : index % 100 = 0 <;> simp [processBatch, h1, h2]

/-- Witness for C8 at concrete inputs: with `save_every = 100`, batch index 0
writes a visualization image. -/
theorem C8_visualization_cadence_witness :
    hasViz (processBatch stubCollab zeroGateParams 0 0 sampleImgs initState).2 = true :=
  ((C8_visualization_cadence stubCollab zeroGateParams 0 0 sampleImgs initState
    (by decide)).1).mpr (by decide)

/-- Generator-side and discriminator-side parameters, Adam moment estimates
and gradient buffers, as mutated by the backpropagation block of
`VQGANTrainer.step` (`trainer.py:151-160`). -/
structure OptState where
  vqParams : List ℚ
  vqMoments : List ℚ
  discParams : List ℚ
  discMoments : List ℚ
  vqGrads : List ℚ
  discGrads : List ℚ
deriving DecidableEq

/-- The operations of one optimization step with their failure modes.
`computeLosses` covers `trainer.py:114-146` (generator forward, perceptual
scoring, discriminator scoring, λ, loss composition), any of which may raise;
the two backward passes may raise; `adamUpdate` is the parameter/moment update
`opt.step()` applies from the current gradients. -/
structure StepExec where
  computeLosses : Batch → OptState → Option (Batch × ℚ × ℚ)
  backwardVq : ℚ → OptState → Option (List ℚ)
  backwardDisc : ℚ → OptState → Option (List ℚ)
  adamUpdate : List ℚ → List ℚ → List ℚ → List ℚ × List ℚ

/-- `VQGANTrainer.step` with its mutation and failure order made explicit
(`trainer.py:114-160`): losses are computed first, then `opt_vq.zero_grad()`,
`vq_loss.backward(retain_graph=True)`, `opt_disc.zero_grad()`,
`gan_loss.backward()`, and only then `opt_vq.step()` followed by
`opt_disc.step()`.  An exception (`none`) anywhere aborts immediately,
returning the state as mutated so far together with `false`. -/
def stepWithFailures (E : StepExec) (imgs : Batch) (s : OptState) :
    OptState × Bool :=
  match E.computeLosses imgs s with
  | none => (s, false)
  | some r =>
    let s1 : OptState := { s with vqGrads := s.vqGrads.map fun _ => 0 }
    match E.backwardVq r.2.1 s1 with
    | none => (s1, false)
    | some gv =>
      let s2 : OptState := { s1 with vqGrads := gv }
      let s3 : OptState := { s2 with discGrads := s2.discGrads.map fun _ => 0 }
      match E.backwardDisc r.2.2 s3 with
      | none => (s3, false)
      | some gd =>
        let s4 : OptState := { s3 with discGrads := gd }
        let pv := E.adamUpdate s4.vqParams s4.vqMoments s4.vqGrads
        let s5 : OptState := { s4 with vqParams := pv.1, vqMoments := pv.2 }
        let pd := E.adamUpdate s5.discParams s5.discMoments s5.discGrads
        let s6 : OptState := { s5 with discParams := pd.1, discMoments := pd.2 }
        (s6, true)

/-- C7: the optimization step fails atomically — the two optimizer parameter
updates come only after both backward passes have completed, so if any
operation in the step raises, the step ends with every model parameter list
and every optimizer moment list unchanged (only gradient buffers may have
been touched). -/
theorem C7_step_failure_atomic (E : StepExec) (imgs : Batch) (s sf : OptState)
    (h : stepWithFailures E imgs s = (sf, false)) :
    sf.vqParams = s.vqParams ∧ sf.vqMoments = s.vqMoments ∧
    sf.discParams = s.discParams ∧ sf.discMoments = s.discMoments := by
  simp only [stepWithFailures] at h
  split at h
  · injection h with h1 h2
    subst h1
    exact ⟨rfl, rfl, rfl, rfl⟩
  · split at h
    · injection h with h1 h2
      subst h1
      exact ⟨rfl, rfl, rfl, rfl⟩
    · split at h
      · injection h with h1 h2
        subst h1
        exact ⟨rfl, rfl, rfl, rfl⟩
      · injection h with h1 h2
        exact Bool.noConfusion h2

/-- A step execution whose very first operation (the forward/loss computation,
e.g. perceptual scoring) raises. -/
def failingExec : StepExec where
  computeLosses := fun _ _ => none
  backwardVq := fun _ _ => none
  backwardDisc := fun _ _ => none
  adamUpdate := fun p m _ => (p, m)

/-- A concrete optimizer/parameter state. -/
def optState0 : OptState :=
  { vqParams := [1], vqMoments := [2], discParams := [3],
    discMoments := [4], vqGrads := [5], discGrads := [6] }

/-- Witness for C7 at concrete inputs: when perceptual scoring raises, the
step leaves all parameters and moment states of `optState0` unchanged. -/
theorem C7_step_failure_atomic_witness :
    ((stepWithFailures failingExec sampleImgs optState0).1).vqParams = optState0.vqParams ∧
    ((stepWithFailures failingExec sampleImgs optState0).1).vqMoments = optState0.vqMoments ∧
    ((stepWithFailures failingExec sampleImgs optState0).1).discParams = optState0.discParams ∧
    ((stepWithFailures failingExec sampleImgs optState0).1).discMoments = optState0.discMoments :=
  C7_step_failure_atomic failingExec sampleImgs optState0
    (stepWithFailures failingExec sampleImgs optState0).1 rfl
